import Mathlib

/-!
Formal model of the pomodoro session-timer engine of this repository
(src/pomo.py and src/pomoz.py): the durable settings store, the session
log store, the timer state machine, and the CSV export, together with
theorems about their behaviour.

Conventions of the embedding:
* Python dictionaries with a fixed key set become Lean structures; a key
  that may be absent becomes an Option field, and dict.get(key, default)
  becomes Option.getD.
* Wall-clock values (datetime.now, time.strftime) are passed in as
  explicit String parameters; they are oracles of the model.
* Tk widget configuration calls (labels, colours, fonts) have no effect
  on the engine state and are dropped.
* Machine integers are Nat: every duration and counter the program
  writes is non-negative (counters start at 0 and only increment;
  minute settings are produced by max(1, ...) or the defaults 25 and 5).
-/

namespace Pomo

/-- Session kind, the value of self.current_session in pomo.py
("pomodoro" or "break"). -/
inductive Session
  | pomodoro
  | brk
deriving DecidableEq

/-- The nested "settings" dict stored inside the pickled settings data
(keys "muted", "pomodoro_minutes", "break_minutes", "window_position");
each key may be absent, get_nested supplies the default. -/
structure CfgDict where
  muted : Option Bool
  pomodoro_minutes : Option Nat
  break_minutes : Option Nat
  window_position : Option (Int × Int)
deriving DecidableEq

/-- The pickled dictionary managed by SettingsManager:
keys "date", "pomodoro", "settings". -/
structure SettingsData where
  date : String
  pomodoro : Nat
  cfg : CfgDict
deriving DecidableEq

/-- Default settings returned by SettingsManager._load_settings on a
missing, unreadable or corrupt file:
a dict with date "", pomodoro 0 and empty nested settings. -/
def default_settings : SettingsData :=
  { date := "", pomodoro := 0,
    cfg := { muted := none, pomodoro_minutes := none,
             break_minutes := none, window_position := none } }

/-- int(self.settings.get_nested("settings", "pomodoro_minutes", 25)),
the configured work minutes with default 25. -/
def cfgPomodoroMinutes (d : SettingsData) : Nat :=
  d.cfg.pomodoro_minutes.getD 25

/-- int(self.settings.get_nested("settings", "break_minutes", 5)),
the configured break minutes with default 5. -/
def cfgBreakMinutes (d : SettingsData) : Nat :=
  d.cfg.break_minutes.getD 5

/-- One session-log entry as built in PomodoroTimer._end_session.
The timestamp (datetime.now) is wall-clock data outside the machine
model and is not part of the machine-level entry; the persistence layer
below models full entries with timestamps. -/
structure LogEntry where
  session_type : Session
  duration : Nat
deriving DecidableEq

/-- The mutable state of the PomodoroTimer object that the timer logic
touches: the in-memory settings dict, the two duration attributes, the
countdown, the running flag, the session kind, the daily counter and
the in-memory session log. -/
structure PomoState where
  settings : SettingsData
  POMODORO_DURATION : Nat
  BREAK_DURATION : Nat
  time_left : Nat
  is_running : Bool
  current_session : Session
  pomodoro_done : Nat
  log : List LogEntry
deriving DecidableEq

/-- The configured duration of the current session kind, as the
expression self.POMODORO_DURATION if self.current_session == "pomodoro"
else self.BREAK_DURATION used throughout pomo.py. -/
def currentDuration (s : PomoState) : Nat :=
  if s.current_session = Session.pomodoro then s.POMODORO_DURATION
  else s.BREAK_DURATION

/-- PomodoroTimer._end_session: stop, append one log entry for the
completed session, on a work session bump the daily counter and persist
it, flip the session kind and load the new kind's configured duration
from the settings store into time_left. -/
def end_session (s : PomoState) : PomoState :=
  let s1 : PomoState := { s with is_running := false }
  let entry : LogEntry :=
    { session_type := s1.current_session, duration := currentDuration s1 }
  let s2 : PomoState := { s1 with log := s1.log ++ [entry] }
  if s2.current_session = Session.pomodoro then
    let done := s2.pomodoro_done + 1
    let st := { s2.settings with pomodoro := done }
    let bd := cfgBreakMinutes st * 60
    { s2 with pomodoro_done := done, settings := st,
              current_session := Session.brk,
              BREAK_DURATION := bd, time_left := bd }
  else
    let pd := cfgPomodoroMinutes s2.settings * 60
    { s2 with current_session := Session.pomodoro,
              POMODORO_DURATION := pd, time_left := pd }

/-- PomodoroTimer._schedule_tick: while running, either arm the next
one-second callback (no state change in this model) or, if the
countdown already reached 0, end the session. -/
def schedule_tick (s : PomoState) : PomoState :=
  if s.is_running then
    if 0 < s.time_left then s else end_session s
  else s

/-- PomodoroTimer._timer_tick: one elapsed second; decrement and
re-arm, or complete the session when the countdown is at 0. -/
def timer_tick (s : PomoState) : PomoState :=
  if s.is_running ∧ 0 < s.time_left then
    schedule_tick { s with time_left := s.time_left - 1 }
  else if s.is_running ∧ s.time_left = 0 then
    end_session s
  else s

/-- PomodoroTimer._start_timer. -/
def start_timer (s : PomoState) : PomoState :=
  schedule_tick { s with is_running := true }

/-- PomodoroTimer._pause_timer (the pending callback cancellation has
no state-level content beyond stopping ticks). -/
def pause_timer (s : PomoState) : PomoState :=
  { s with is_running := false }

/-- PomodoroTimer._pause_resume, the single Start/Pause toggle. -/
def pause_resume (s : PomoState) : PomoState :=
  if s.is_running then pause_timer s else start_timer s

/-- PomodoroTimer._reset_timer: stop, reload both durations from the
settings store, and restart the display at a fresh work session. -/
def reset_timer (s : PomoState) : PomoState :=
  let pd := cfgPomodoroMinutes s.settings * 60
  let bd := cfgBreakMinutes s.settings * 60
  { s with POMODORO_DURATION := pd, BREAK_DURATION := bd,
           time_left := pd, is_running := false,
           current_session := Session.pomodoro }

/-- Model of the Python built-in int(str): optional surrounding
whitespace, an optional sign, then a non-empty digit string; anything
else raises ValueError (None here). Underscore digit grouping is not
modelled; no input in this development uses it. -/
def pyStrip (cs : List Char) : List Char :=
  ((cs.dropWhile Char.isWhitespace).reverse.dropWhile Char.isWhitespace).reverse

/-- Digits-to-number accumulation for the int(str) model. -/
def digitsToNat (cs : List Char) : Nat :=
  cs.foldl (fun n c => n * 10 + (c.toNat - 48)) 0

/-- All characters are decimal digits and there is at least one. -/
def allDigits (cs : List Char) : Bool :=
  cs.all Char.isDigit && !cs.isEmpty

/-- int(s) for a Python str s, as an Option. -/
def parsePyInt (s : String) : Option Int :=
  match pyStrip s.toList with
  | '-' :: rest => if allDigits rest then some (-(digitsToNat rest : Int)) else none
  | '+' :: rest => if allDigits rest then some (digitsToNat rest : Int) else none
  | cs => if allDigits cs then some (digitsToNat cs : Int) else none

/-- save_and_close inside PomodoroTimer._open_duration_dialog: parse
both entry fields with int(); on success clamp each with max(1, ...),
store the clamped minutes into the settings dict, persist, update both
duration attributes immediately, and adjust time_left only when the
timer is not running; any int() failure aborts before any mutation
(the error dialog) and leaves the state unchanged. -/
def save_and_close (pomo_var break_var : String) (s : PomoState) : PomoState :=
  match parsePyInt pomo_var, parsePyInt break_var with
  | some p, some b =>
    let pomo : Nat := (max 1 p).toNat
    let brk : Nat := (max 1 b).toNat
    let st := { s.settings with
      cfg := { s.settings.cfg with
        pomodoro_minutes := some pomo, break_minutes := some brk } }
    let s1 := { s with settings := st,
                       POMODORO_DURATION := pomo * 60,
                       BREAK_DURATION := brk * 60 }
    if s1.is_running then s1
    else if s1.current_session = Session.pomodoro then
      { s1 with time_left := s1.POMODORO_DURATION }
    else
      { s1 with time_left := s1.BREAK_DURATION }
  | _, _ => s

/-- The daily-reset check in PomodoroTimer._load_settings: when the
stored date differs from today, reset the counter, stamp today and save
immediately. The Bool reports whether a save was performed. -/
def dailyResetCheck (today : String) (d : SettingsData) : SettingsData × Bool :=
  if d.date ≠ today then ({ d with date := today, pomodoro := 0 }, true)
  else (d, false)

/-- The engine state right after PomodoroTimer.__init__ ran
_init_attributes and _load_settings with loaded settings d and loaded
session log log0 on day today. -/
def startupState (today : String) (d : SettingsData) (log0 : List LogEntry) :
    PomoState :=
  let d1 := (dailyResetCheck today d).1
  { settings := d1,
    POMODORO_DURATION := cfgPomodoroMinutes d1 * 60,
    BREAK_DURATION := cfgBreakMinutes d1 * 60,
    time_left := cfgPomodoroMinutes d1 * 60,
    is_running := false,
    current_session := Session.pomodoro,
    pomodoro_done := d1.pomodoro,
    log := log0 }

/-- The UI commands that reach the timer engine. -/
inductive Cmd
  | pause_resume
  | tick
  | reset
  | set_duration (pomo_var break_var : String)
deriving DecidableEq

/-- Dispatch one command to the corresponding pomo.py handler. -/
def step (s : PomoState) : Cmd → PomoState
  | Cmd.pause_resume => pause_resume s
  | Cmd.tick => timer_tick s
  | Cmd.reset => reset_timer s
  | Cmd.set_duration p b => save_and_close p b s

/-- Run a command sequence. -/
def run (cmds : List Cmd) (s : PomoState) : PomoState :=
  cmds.foldl step s

/-- Run n scheduler ticks. -/
def runTicks (n : Nat) (s : PomoState) : PomoState :=
  run (List.replicate n Cmd.tick) s

/-- The commands of the start/pause/resume/reset repertoire (everything
except the duration dialog). -/
def basicCmd : Cmd → Bool
  | Cmd.set_duration _ _ => false
  | _ => true

end Pomo

namespace Pomoz

/-- One session-log entry as built in SimplePomodoro._save_session
(keys "timestamp", "session_type", "duration_seconds";
session_type is the string "Pomodoro" or "Break"). -/
structure ZEntry where
  timestamp : String
  session_type : String
  duration_seconds : Nat
deriving DecidableEq

/-- The pomoz session log: a JSON object mapping a calendar-date key to
the list of that day's entries, in dict insertion order, modelled as an
association list. -/
abbrev ZLog := List (String × List ZEntry)

/-- self.session_log.setdefault(today_key, []).append(entry): append
under an existing key in place, or add a fresh key at the end of the
dict's insertion order. -/
def zAppend (log : ZLog) (key : String) (e : ZEntry) : ZLog :=
  match log with
  | [] => [(key, [e])]
  | (k, es) :: rest =>
    if k = key then (k, es ++ [e]) :: rest
    else (k, es) :: zAppend rest key e

/-- SimplePomodoro.POMODORO_DURATION (class constant). -/
def POMODORO_DURATION : Nat := 25 * 60

/-- SimplePomodoro.BREAK_DURATION (class constant). -/
def BREAK_DURATION : Nat := 5 * 60

/-- The mutable state of the SimplePomodoro object that the timer logic
touches. -/
structure ZState where
  is_running : Bool
  is_pomodoro : Bool
  time_left : Nat
  session_log : ZLog
deriving DecidableEq

/-- SimplePomodoro._current_session_duration. -/
def zCurrentDuration (s : ZState) : Nat :=
  if s.is_pomodoro then POMODORO_DURATION else BREAK_DURATION

/-- SimplePomodoro._save_session on day today at wall-clock now. -/
def zSaveSession (today now : String) (s : ZState) : ZState :=
  let entry : ZEntry :=
    { timestamp := now,
      session_type := if s.is_pomodoro then "Pomodoro" else "Break",
      duration_seconds := zCurrentDuration s }
  { s with session_log := zAppend s.session_log today entry }

/-- SimplePomodoro._switch_session. -/
def zSwitchSession (s : ZState) : ZState :=
  let p := !s.is_pomodoro
  { s with is_pomodoro := p,
           time_left := if p then POMODORO_DURATION else BREAK_DURATION }

/-- SimplePomodoro._session_finished: stop, save the completed session
(before the kind flips), then switch session kinds. -/
def zSessionFinished (today now : String) (s : ZState) : ZState :=
  zSwitchSession (zSaveSession today now { s with is_running := false })

/-- SimplePomodoro._count_down: decrement and re-arm while positive;
the tick that observes 0 while running finishes the session. -/
def zCountDown (today now : String) (s : ZState) : ZState :=
  if s.is_running ∧ 0 < s.time_left then
    { s with time_left := s.time_left - 1 }
  else if s.is_running ∧ s.time_left = 0 then
    zSessionFinished today now s
  else s

/-- SimplePomodoro._start_timer: set running and immediately run one
countdown step (the source calls self._count_down() directly). -/
def zStartTimer (today now : String) (s : ZState) : ZState :=
  if !s.is_running then zCountDown today now { s with is_running := true }
  else s

/-- SimplePomodoro._pause_timer. -/
def zPauseTimer (s : ZState) : ZState :=
  { s with is_running := false }

/-- SimplePomodoro._toggle_timer. -/
def zToggleTimer (today now : String) (s : ZState) : ZState :=
  if s.is_running then zPauseTimer s else zStartTimer today now s

/-- SimplePomodoro._reset_timer. -/
def zResetTimer (s : ZState) : ZState :=
  let s1 := zPauseTimer s
  { s1 with is_pomodoro := true, time_left := POMODORO_DURATION }

/-- The UI commands that reach the pomoz timer; ticks and toggles carry
the wall-clock oracles they might log with. -/
inductive ZCmd
  | toggle (today now : String)
  | tick (today now : String)
  | reset
deriving DecidableEq

/-- Dispatch one command to the corresponding pomoz.py handler. -/
def zStep (s : ZState) : ZCmd → ZState
  | ZCmd.toggle today now => zToggleTimer today now s
  | ZCmd.tick today now => zCountDown today now s
  | ZCmd.reset => zResetTimer s

/-- Run a command sequence on the pomoz machine. -/
def zRun (cmds : List ZCmd) (s : ZState) : ZState :=
  cmds.foldl zStep s

/-- The state right after SimplePomodoro.__init__ with loaded log. -/
def zStartupState (log0 : ZLog) : ZState :=
  { is_running := false, is_pomodoro := true,
    time_left := POMODORO_DURATION, session_log := log0 }

/-- Total number of entries in a pomoz log across all dates. -/
def zTotalEntries (log : ZLog) : Nat :=
  (log.map (fun p => p.2.length)).sum

/-- The CSV header row written by SimplePomodoro._export_log. -/
def zheader : List String :=
  ["Date", "Timestamp", "Session Type", "Duration (seconds)"]

/-- One CSV data row written by SimplePomodoro._export_log. -/
def zrow (date : String) (e : ZEntry) : List String :=
  [date, e.timestamp, e.session_type, toString e.duration_seconds]

/-- Python string comparison: lexicographic on code points. Executable
model used for sorted(); agrees with Python s1 <= s2. -/
def lexLeB : List Char → List Char → Bool
  | [], _ => true
  | _ :: _, [] => false
  | c :: cs, d :: ds =>
    if c.toNat < d.toNat then true
    else if c.toNat = d.toNat then lexLeB cs ds
    else false

/-- Python <= on str, as a proposition. -/
def pyStrLe (a b : String) : Prop := lexLeB a.toList b.toList = true

instance : DecidableRel pyStrLe := fun a b =>
  inferInstanceAs (Decidable (lexLeB a.toList b.toList = true))

/-- The key order used by sorted(self.session_log.items()): Python
compares the (key, value) tuples, and since dict keys are unique the
comparison is decided by the date key alone. -/
def dateLE (p q : String × List ZEntry) : Prop := pyStrLe p.1 q.1

instance : DecidableRel dateLE := fun p q =>
  inferInstanceAs (Decidable (pyStrLe p.1 q.1))

theorem lexLeB_total (a b : List Char) : lexLeB a b = true ∨ lexLeB b a = true := by
  induction a generalizing b with
  | nil => left; rfl
  | cons c cs ih =>
    cases b with
    | nil => right; rfl
    | cons d ds =>
      rcases Nat.lt_trichotomy c.toNat d.toNat with h | h | h
      · left; simp [lexLeB, h]
      · rcases ih ds with h2 | h2
        · left; simp [lexLeB, h, h2]
        · right; simp [lexLeB, h.symm, h2]
      · right; simp [lexLeB, h]

theorem lexLeB_trans {a b c : List Char} (h1 : lexLeB a b = true)
    (h2 : lexLeB b c = true) : lexLeB a c = true := by
  induction a generalizing b c with
  | nil => rfl
  | cons x xs ih =>
    cases b with
    | nil => simp [lexLeB] at h1
    | cons y ys =>
      cases c with
      | nil => simp [lexLeB] at h2
      | cons z zs =>
        simp only [lexLeB] at h1 h2 ⊢
        have hx : x.toNat < y.toNat ∨ (x.toNat = y.toNat ∧ lexLeB xs ys = true) := by
          by_cases h : x.toNat < y.toNat
          · exact Or.inl h
          · rw [if_neg h] at h1
            by_cases he : x.toNat = y.toNat
            · rw [if_pos he] at h1; exact Or.inr ⟨he, h1⟩
            · rw [if_neg he] at h1; cases h1
        have hy : y.toNat < z.toNat ∨ (y.toNat = z.toNat ∧ lexLeB ys zs = true) := by
          by_cases h : y.toNat < z.toNat
          · exact Or.inl h
          · rw [if_neg h] at h2
            by_cases he : y.toNat = z.toNat
            · rw [if_pos he] at h2; exact Or.inr ⟨he, h2⟩
            · rw [if_neg he] at h2; cases h2
        rcases hx with hx | ⟨hx, l1⟩ <;> rcases hy with hy | ⟨hy, l2⟩
        · rw [if_pos (by omega)]
        · rw [if_pos (by omega)]
        · rw [if_pos (by omega)]
        · rw [if_neg (by omega), if_pos (by omega)]
          exact ih l1 l2

instance : IsTotal (String × List ZEntry) dateLE :=
  ⟨fun p q => lexLeB_total p.1.toList q.1.toList⟩

instance : IsTrans (String × List ZEntry) dateLE :=
  ⟨fun _ _ _ h h2 => lexLeB_trans h h2⟩

/-- The rows of the CSV file produced by SimplePomodoro._export_log:
one header row, then for each date in sorted key order the date's
entries in their stored order. -/
def export_log (log : ZLog) : List (List String) :=
  zheader :: (List.insertionSort dateLE log).flatMap (fun p => p.2.map (zrow p.1))

/-- The date column of the data rows of an export grouping. -/
def rowDates (log : ZLog) : List String :=
  log.flatMap (fun p => p.2.map (fun _ => p.1))

end Pomoz

namespace Pomo

/-! ### Persistence model

pomo.py persists the settings dict and the session log with
pickle.dump/pickle.load. pickle is a self-describing serialization of
the Python standard library, outside this repository; it is modelled
here as a concrete injective token encoding for exactly the value
shapes the program stores, with an executable decoder, so that
round-trip and fail-soft behaviour are real theorems rather than
assumptions. -/

/-- Serialized atoms of the pickle model. -/
inductive Tok
  | tstr (s : String)
  | tnat (n : Nat)
  | tint (i : Int)
  | tbool (b : Bool)
  | tnone
deriving DecidableEq

/-- One persisted session-log entry: the dict with keys "timestamp",
"session_type" and "duration" built in PomodoroTimer._end_session
(session_type is the string "pomodoro" or "break"). -/
structure StoredEntry where
  timestamp : String
  session_type : String
  duration : Nat
deriving DecidableEq

/-- Encode an optional Nat (an absent or present dict key). -/
def encOptNat : Option Nat → List Tok
  | none => [Tok.tnone]
  | some n => [Tok.tnat n]

/-- Decode an optional Nat, returning the remaining tokens. -/
def decOptNat : List Tok → Option (Option Nat × List Tok)
  | Tok.tnone :: r => some (none, r)
  | Tok.tnat n :: r => some (some n, r)
  | _ => none

/-- Encode an optional Bool. -/
def encOptBool : Option Bool → List Tok
  | none => [Tok.tnone]
  | some b => [Tok.tbool b]

/-- Decode an optional Bool. -/
def decOptBool : List Tok → Option (Option Bool × List Tok)
  | Tok.tnone :: r => some (none, r)
  | Tok.tbool b :: r => some (some b, r)
  | _ => none

/-- Encode an optional window position pair. -/
def encOptPair : Option (Int × Int) → List Tok
  | none => [Tok.tnone]
  | some (x, y) => [Tok.tint x, Tok.tint y]

/-- Decode an optional window position pair. -/
def decOptPair : List Tok → Option (Option (Int × Int) × List Tok)
  | Tok.tnone :: r => some (none, r)
  | Tok.tint x :: Tok.tint y :: r => some (some (x, y), r)
  | _ => none

/-- Encode the nested settings dict. -/
def encCfg (c : CfgDict) : List Tok :=
  encOptBool c.muted ++ encOptNat c.pomodoro_minutes ++
    encOptNat c.break_minutes ++ encOptPair c.window_position

/-- Decode the nested settings dict. -/
def decCfg (ts : List Tok) : Option (CfgDict × List Tok) :=
  match decOptBool ts with
  | none => none
  | some (m, r1) =>
    match decOptNat r1 with
    | none => none
    | some (pm, r2) =>
      match decOptNat r2 with
      | none => none
      | some (bm, r3) =>
        match decOptPair r3 with
        | none => none
        | some (wp, r4) =>
          some ({ muted := m, pomodoro_minutes := pm,
                  break_minutes := bm, window_position := wp }, r4)

/-- Encode the whole settings dict (the pickled value of
SettingsManager.data). -/
def encSettings (d : SettingsData) : List Tok :=
  Tok.tstr d.date :: Tok.tnat d.pomodoro :: encCfg d.cfg

/-- Decode a settings dict. -/
def decSettings (ts : List Tok) : Option (SettingsData × List Tok) :=
  match ts with
  | Tok.tstr date :: Tok.tnat pom :: r =>
    match decCfg r with
    | none => none
    | some (c, r1) => some ({ date := date, pomodoro := pom, cfg := c }, r1)
  | _ => none

/-- Encode one session-log entry. -/
def encEntry (e : StoredEntry) : List Tok :=
  [Tok.tstr e.timestamp, Tok.tstr e.session_type, Tok.tnat e.duration]

/-- Decode one session-log entry. -/
def decEntry : List Tok → Option (StoredEntry × List Tok)
  | Tok.tstr ts :: Tok.tstr st :: Tok.tnat d :: r =>
    some ({ timestamp := ts, session_type := st, duration := d }, r)
  | _ => none

/-- Encode a list of entries (length-prefixed). -/
def encEntries (l : List StoredEntry) : List Tok :=
  Tok.tnat l.length :: l.flatMap encEntry

/-- Decode exactly n entries. -/
def decEntriesN : Nat → List Tok → Option (List StoredEntry × List Tok)
  | 0, r => some ([], r)
  | n + 1, r =>
    match decEntry r with
    | none => none
    | some (e, r1) =>
      match decEntriesN n r1 with
      | none => none
      | some (l, r2) => some (e :: l, r2)

/-- Decode a list of entries. -/
def decEntries (ts : List Tok) : Option (List StoredEntry × List Tok) :=
  match ts with
  | Tok.tnat n :: r => decEntriesN n r
  | _ => none

/-- pickle.load for a settings file: the whole content must decode as
one settings dict. -/
def unpickleSettings (ts : List Tok) : Option SettingsData :=
  match decSettings ts with
  | some (d, []) => some d
  | _ => none

/-- pickle.load for a session-log file: the whole content must decode
as one list of entries. -/
def unpickleLog (ts : List Tok) : Option (List StoredEntry) :=
  match decEntries ts with
  | some (l, []) => some l
  | _ => none

/-- The observable state of a backing file when a load runs: absent
(os.path.exists is false), unreadable (open/read raises), or present
with some serialized content (which may or may not unpickle). -/
inductive FileSt
  | missing
  | unreadable
  | content (ts : List Tok)
deriving DecidableEq

/-- SettingsManager._load_settings as a fallible computation: the value
it would return, or an error it would raise. The try block catches
Exception, so every failure inside it lands in the default branch; only
a missing file skips the read entirely (also the default). -/
def load_settingsE (fs : FileSt) : Except String SettingsData :=
  match fs with
  | FileSt.missing => Except.ok default_settings
  | FileSt.unreadable => Except.ok default_settings
  | FileSt.content ts =>
    match unpickleSettings ts with
    | some d => Except.ok d
    | none => Except.ok default_settings

/-- SessionLogManager._load_log, same fail-soft structure with the
empty list as the default. -/
def load_logE (fs : FileSt) : Except String (List StoredEntry) :=
  match fs with
  | FileSt.missing => Except.ok []
  | FileSt.unreadable => Except.ok []
  | FileSt.content ts =>
    match unpickleLog ts with
    | some l => Except.ok l
    | none => Except.ok []

/-- The file content produced by SettingsManager.save: the pickled
settings dict. -/
def settingsFileOf (d : SettingsData) : FileSt :=
  FileSt.content (encSettings d)

/-- The file content produced by SessionLogManager.save: the pickled
entry list. -/
def logFileOf (l : List StoredEntry) : FileSt :=
  FileSt.content (encEntries l)

/-! ### Crash model of the write paths

The two pomo.py save methods and the pomoz.py log writer are modelled
as straight-line sequences of file-system effects, so that crashing
after a prefix of the sequence is expressible. -/

/-- Where a temporary file lives: the system temporary directory (what
tempfile.NamedTemporaryFile uses when no dir argument is given) or the
directory of the target file. -/
inductive TmpDir
  | sysTemp
  | targetDir
deriving DecidableEq

/-- One file-system effect of a write path. -/
inductive WStep
  | createTemp (dir : TmpDir)
  | writeTemp (data : List Tok)
  | moveTempToTarget
  | openTruncateTarget
  | writeTarget (data : List Tok)
deriving DecidableEq

/-- Disk state visible to a write path: the target file's content and
the temporary file, if any. -/
structure DiskState where
  target : Option (List Tok)
  temp : Option (TmpDir × List Tok)
deriving DecidableEq

/-- Effect of one write step on the disk. The move step models
shutil.move, which renames in one step only when source and destination
are on the same filesystem; the counterexamples below do not depend on
this step being atomic. -/
def applyWStep (fs : DiskState) : WStep → DiskState
  | WStep.createTemp dir => { fs with temp := some (dir, []) }
  | WStep.writeTemp data =>
    { fs with temp := fs.temp.map (fun p => (p.1, data)) }
  | WStep.moveTempToTarget =>
    match fs.temp with
    | some (_, data) => { target := some data, temp := none }
    | none => fs
  | WStep.openTruncateTarget => { fs with target := some [] }
  | WStep.writeTarget data => { fs with target := some data }

/-- SettingsManager.save: NamedTemporaryFile (system temp directory, no
dir argument), pickle.dump into it, then shutil.move onto the target. -/
def settings_save_steps (data : List Tok) : List WStep :=
  [WStep.createTemp TmpDir.sysTemp, WStep.writeTemp data,
   WStep.moveTempToTarget]

/-- SessionLogManager.save: the same write path as SettingsManager.save. -/
def session_log_save_steps (data : List Tok) : List WStep :=
  settings_save_steps data

/-- SimplePomodoro._write_session_log (pomoz.py): open the target
itself with mode "w" (truncating it) and json.dump the log into it; no
temporary file is involved. -/
def write_session_log_steps (data : List Tok) : List WStep :=
  [WStep.openTruncateTarget, WStep.writeTarget data]

/-- The disk after the first k steps of a write path ran and the
process then crashed. -/
def crashAfter (prog : List WStep) (k : Nat) (fs : DiskState) : DiskState :=
  (prog.take k).foldl applyWStep fs

/-! ### Sample concrete values used to instantiate the theorems -/

/-- A sample stored settings dict: 25/5 minutes, dated 2024-01-01. -/
def sampleSettings : SettingsData :=
  { date := "2024-01-01", pomodoro := 3,
    cfg := { muted := some false, pomodoro_minutes := some 25,
             break_minutes := some 5, window_position := some (10, 20) } }

/-- A sample stored settings dict with a 1-minute work session, for
short concrete runs. -/
def shortSettings : SettingsData :=
  { date := "2024-01-01", pomodoro := 0,
    cfg := { muted := none, pomodoro_minutes := some 1,
             break_minutes := some 5, window_position := none } }

/-- The engine started on 2024-01-01 from sampleSettings with an empty
log. -/
def sampleState : PomoState := startupState "2024-01-01" sampleSettings []

/-- sampleState mid-run: a work session started from sampleSettings and
ticked down to 1400 seconds remaining. -/
def runningState : PomoState :=
  { sampleState with is_running := true, time_left := 1400 }

/-- A running break session with 2 seconds left, from sampleSettings. -/
def runningBreakState : PomoState :=
  { sampleState with
    is_running := true
    time_left := 2
    current_session := Session.brk }

/-- A running work session one second from completion. -/
def finishingState : PomoState :=
  { sampleState with is_running := true, time_left := 1 }

end Pomo

namespace Pomoz

/-- Sample log entries for concrete export runs. -/
def zE1 : ZEntry := { timestamp := "2024-01-02T09:00:00",
                      session_type := "Pomodoro", duration_seconds := 1500 }

/-- Second sample entry. -/
def zE2 : ZEntry := { timestamp := "2024-01-01T10:00:00",
                      session_type := "Break", duration_seconds := 300 }

/-- Third sample entry. -/
def zE3 : ZEntry := { timestamp := "2024-01-01T11:00:00",
                      session_type := "Pomodoro", duration_seconds := 1500 }

/-- A sample session log whose date keys sit in the dict out of
ascending order. -/
def zSampleLog : ZLog := [("2024-01-02", [zE1]), ("2024-01-01", [zE2, zE3])]

/-- A pomoz state one tick away from finishing a break session. -/
def zRunningBreak : ZState :=
  { is_running := true, is_pomodoro := false, time_left := 0,
    session_log := zSampleLog }

end Pomoz

namespace Pomo

/-! ### Helper lemmas about the pomo.py machine -/

theorem run_cons (c : Cmd) (cmds : List Cmd) (s : PomoState) :
    run (c :: cmds) s = run cmds (step s c) := rfl

theorem runTicks_succ (n : Nat) (s : PomoState) :
    runTicks (n + 1) s = runTicks n (timer_tick s) := rfl

theorem end_session_is_running (s : PomoState) :
    (end_session s).is_running = false := by
  cases hcs : s.current_session <;> simp [end_session, hcs]

theorem end_session_log (s : PomoState) :
    (end_session s).log =
      s.log ++ [{ session_type := s.current_session,
                  duration := currentDuration s }] := by
  cases hcs : s.current_session <;> simp [end_session, currentDuration, hcs]

theorem timer_tick_not_running (s : PomoState) (h : s.is_running = false) :
    timer_tick s = s := by
  simp [timer_tick, h]

theorem runTicks_idle (n : Nat) (s : PomoState) (h : s.is_running = false) :
    runTicks n s = s := by
  induction n with
  | zero => rfl
  | succ k ih => rw [runTicks_succ, timer_tick_not_running s h, ih]

/-- A running countdown at t + 1 seconds completes after any n ≥ t + 1
ticks: the machine ends the session exactly once and further ticks are
no-ops. -/
theorem runTicks_complete (t : Nat) :
    ∀ (s : PomoState) (n : Nat), s.is_running = true → s.time_left = t + 1 →
      t + 1 ≤ n → runTicks n s = end_session { s with time_left := 0 } := by
  induction t with
  | zero =>
    intro s n hr htl hn
    obtain ⟨m, rfl⟩ : ∃ m, n = m + 1 := ⟨n - 1, by omega⟩
    rw [runTicks_succ]
    have h1 : timer_tick s = end_session { s with time_left := 0 } := by
      simp [timer_tick, hr, htl, schedule_tick]
    rw [h1, runTicks_idle _ _ (end_session_is_running _)]
  | succ k ih =>
    intro s n hr htl hn
    obtain ⟨m, rfl⟩ : ∃ m, n = m + 1 := ⟨n - 1, by omega⟩
    rw [runTicks_succ]
    have h1 : timer_tick s = { s with time_left := k + 1 } := by
      simp [timer_tick, hr, htl, schedule_tick]
    rw [h1, ih { s with time_left := k + 1 } m hr rfl (by omega)]

theorem dailyResetCheck_cfg (today : String) (d : SettingsData) :
    (dailyResetCheck today d).1.cfg = d.cfg := by
  unfold dailyResetCheck
  split <;> rfl

/-- Pressing Start on an idle state with a positive countdown just
sets the running flag. -/
theorem start_step (s : PomoState) (h : s.is_running = false)
    (hp : 0 < s.time_left) :
    step s Cmd.pause_resume = { s with is_running := true } := by
  simp [step, pause_resume, pause_timer, start_timer, schedule_tick, h, hp]

/-- A start followed by at least time_left ticks drives an idle session
to its completion transition, after which further ticks are no-ops. -/
theorem run_start_to_completion (s : PomoState) (n : Nat)
    (hidle : s.is_running = false) (hpos : 0 < s.time_left)
    (hn : s.time_left ≤ n) :
    run (Cmd.pause_resume :: List.replicate n Cmd.tick) s
      = end_session { s with is_running := true, time_left := 0 } := by
  rw [run_cons, start_step s hidle hpos]
  exact runTicks_complete (s.time_left - 1) { s with is_running := true } n
    rfl (by show s.time_left = _; omega) (by omega)

/-- Effect of a successful duration-dialog save while the timer is
running: both parsed values are clamped with max(1, ...), stored and
mirrored into the duration attributes, and time_left is not touched. -/
theorem save_and_close_running (pv bv : String) (s : PomoState)
    (ip ib : Int) (hp : parsePyInt pv = some ip) (hb : parsePyInt bv = some ib)
    (hr : s.is_running = true) :
    save_and_close pv bv s =
      { s with
        settings := { s.settings with cfg := { s.settings.cfg with
          pomodoro_minutes := some (max 1 ip).toNat,
          break_minutes := some (max 1 ib).toNat } },
        POMODORO_DURATION := (max 1 ip).toNat * 60,
        BREAK_DURATION := (max 1 ib).toNat * 60 } := by
  simp [save_and_close, hp, hb, hr]

/-- Invariant of the pomo.py machine under the basic commands: the
countdown never exceeds the configured duration of the current kind,
and both duration attributes agree with the settings store. -/
def DurInv (s : PomoState) : Prop :=
  s.time_left ≤ currentDuration s ∧
  s.POMODORO_DURATION = cfgPomodoroMinutes s.settings * 60 ∧
  s.BREAK_DURATION = cfgBreakMinutes s.settings * 60

theorem durInv_end_session (s : PomoState) (h : DurInv s) :
    DurInv (end_session s) := by
  obtain ⟨-, h2, h3⟩ := h
  cases hcs : s.current_session <;>
    simp [end_session, DurInv, currentDuration, hcs, cfgPomodoroMinutes,
      cfgBreakMinutes, h2, h3]

theorem durInv_schedule_tick (s : PomoState) (h : DurInv s) :
    DurInv (schedule_tick s) := by
  unfold schedule_tick
  split
  · split
    · exact h
    · exact durInv_end_session s h
  · exact h

theorem durInv_timer_tick (s : PomoState) (h : DurInv s) :
    DurInv (timer_tick s) := by
  unfold timer_tick
  split
  · apply durInv_schedule_tick
    obtain ⟨h1, h2, h3⟩ := h
    exact ⟨by simpa [currentDuration] using Nat.le_trans (Nat.sub_le _ _) h1,
      h2, h3⟩
  · split
    · exact durInv_end_session s h
    · exact h

theorem durInv_pause_resume (s : PomoState) (h : DurInv s) :
    DurInv (pause_resume s) := by
  unfold pause_resume pause_timer start_timer
  split
  · exact h
  · exact durInv_schedule_tick _ h

theorem durInv_reset_timer (s : PomoState) (_h : DurInv s) :
    DurInv (reset_timer s) := by
  simp [reset_timer, DurInv, currentDuration]

theorem durInv_run (cmds : List Cmd) (s : PomoState)
    (h : ∀ c ∈ cmds, basicCmd c = true) (hs : DurInv s) :
    DurInv (run cmds s) := by
  induction cmds generalizing s with
  | nil => exact hs
  | cons c cmds ih =>
    rw [run_cons]
    refine ih _ (fun x hx => h x (List.mem_cons_of_mem _ hx)) ?_
    have hc := h c (List.mem_cons_self _ _)
    cases c with
    | pause_resume => exact durInv_pause_resume _ hs
    | tick => exact durInv_timer_tick _ hs
    | reset => exact durInv_reset_timer _ hs
    | set_duration p b => simp [basicCmd] at hc

theorem durInv_startupState (today : String) (d : SettingsData)
    (log0 : List LogEntry) : DurInv (startupState today d log0) := by
  simp [startupState, DurInv, currentDuration]

end Pomo

namespace Pomoz

/-! ### Helper lemmas about the pomoz.py machine -/

theorem zRun_cons (c : ZCmd) (cmds : List ZCmd) (s : ZState) :
    zRun (c :: cmds) s = zRun cmds (zStep s c) := rfl

theorem zTotalEntries_zAppend (log : ZLog) (k : String) (e : ZEntry) :
    zTotalEntries (zAppend log k e) = zTotalEntries log + 1 := by
  induction log with
  | nil => simp [zAppend, zTotalEntries]
  | cons p log ih =>
    obtain ⟨k2, es⟩ := p
    by_cases h : k2 = k <;>
      simp [zAppend, zTotalEntries, h] at ih ⊢ <;> omega

/-- Invariant of the pomoz.py machine: the countdown never exceeds the
configured duration of the current kind. -/
def ZDurInv (s : ZState) : Prop := s.time_left ≤ zCurrentDuration s

theorem zDurInv_zSessionFinished (today now : String) (s : ZState) :
    ZDurInv (zSessionFinished today now s) := by
  cases hp : s.is_pomodoro <;>
    simp [zSessionFinished, zSwitchSession, zSaveSession, ZDurInv,
      zCurrentDuration, hp]

theorem zDurInv_zCountDown (today now : String) (s : ZState)
    (h : ZDurInv s) : ZDurInv (zCountDown today now s) := by
  unfold zCountDown
  split
  · exact Nat.le_trans (Nat.sub_le _ _) h
  · split
    · exact zDurInv_zSessionFinished today now s
    · exact h

theorem zDurInv_zStep (c : ZCmd) (s : ZState) (h : ZDurInv s) :
    ZDurInv (zStep s c) := by
  cases c with
  | toggle today now =>
    show ZDurInv (zToggleTimer today now s)
    unfold zToggleTimer zPauseTimer zStartTimer
    split
    · exact h
    · split
      · exact zDurInv_zCountDown today now _ h
      · exact h
  | tick today now => exact zDurInv_zCountDown today now s h
  | reset =>
    show ZDurInv (zResetTimer s)
    simp [zResetTimer, zPauseTimer, ZDurInv, zCurrentDuration]

theorem zDurInv_zRun (cmds : List ZCmd) (s : ZState) (h : ZDurInv s) :
    ZDurInv (zRun cmds s) := by
  induction cmds generalizing s with
  | nil => exact h
  | cons c cmds ih => exact ih _ (zDurInv_zStep c s h)

end Pomoz

namespace Pomo

/-! ### Round-trip lemmas for the pickle model -/

theorem decOptNat_enc (o : Option Nat) (r : List Tok) :
    decOptNat (encOptNat o ++ r) = some (o, r) := by
  cases o <;> rfl

theorem decOptBool_enc (o : Option Bool) (r : List Tok) :
    decOptBool (encOptBool o ++ r) = some (o, r) := by
  cases o <;> rfl

theorem decOptPair_enc (o : Option (Int × Int)) (r : List Tok) :
    decOptPair (encOptPair o ++ r) = some (o, r) := by
  cases o with
  | none => rfl
  | some p => cases p; rfl

theorem decCfg_enc (c : CfgDict) (r : List Tok) :
    decCfg (encCfg c ++ r) = some (c, r) := by
  simp [encCfg, decCfg, List.append_assoc, decOptBool_enc, decOptNat_enc,
    decOptPair_enc]

theorem decSettings_enc (d : SettingsData) (r : List Tok) :
    decSettings (encSettings d ++ r) = some (d, r) := by
  simp [encSettings, decSettings, decCfg_enc]

theorem unpickleSettings_enc (d : SettingsData) :
    unpickleSettings (encSettings d) = some d := by
  have h := decSettings_enc d []
  rw [List.append_nil] at h
  simp [unpickleSettings, h]

theorem decEntry_enc (e : StoredEntry) (r : List Tok) :
    decEntry (encEntry e ++ r) = some (e, r) := rfl

theorem decEntriesN_enc (l : List StoredEntry) (r : List Tok) :
    decEntriesN l.length (l.flatMap encEntry ++ r) = some (l, r) := by
  induction l with
  | nil => rfl
  | cons e l ih =>
    simp [decEntriesN, List.flatMap_cons, List.append_assoc, decEntry_enc, ih]

theorem unpickleLog_enc (l : List StoredEntry) :
    unpickleLog (encEntries l) = some l := by
  have h := decEntriesN_enc l []
  rw [List.append_nil] at h
  simp [unpickleLog, encEntries, decEntries, h]

end Pomo

namespace Pomoz

/-! ### Helper lemmas for the CSV export -/

theorem lexLeB_refl (a : List Char) : lexLeB a a = true := by
  induction a with
  | nil => rfl
  | cons c cs ih => simp [lexLeB, ih]

theorem pairwise_const {α : Type} {C : Prop} (hC : C) (l : List α) :
    List.Pairwise (fun _ _ => C) l := by
  induction l with
  | nil => exact List.Pairwise.nil
  | cons a l ih => exact List.Pairwise.cons (fun _ _ => hC) ih

theorem mem_rowDates {l : ZLog} {a : String} (h : a ∈ rowDates l) :
    ∃ q ∈ l, a = q.1 := by
  induction l with
  | nil => simp [rowDates] at h
  | cons p l ih =>
    simp only [rowDates, List.flatMap_cons, List.mem_append] at h
    rcases h with h | h
    · simp only [List.mem_map] at h
      obtain ⟨e, -, rfl⟩ := h
      exact ⟨p, List.mem_cons_self _ _, rfl⟩
    · obtain ⟨q, hq, rfl⟩ := ih h
      exact ⟨q, List.mem_cons_of_mem _ hq, rfl⟩

theorem rowDates_sorted (l : ZLog) (h : List.Sorted dateLE l) :
    List.Sorted pyStrLe (rowDates l) := by
  induction l with
  | nil => exact List.sorted_nil
  | cons p l ih =>
    rw [List.sorted_cons] at h
    obtain ⟨h1, h2⟩ := h
    show List.Sorted pyStrLe (p.2.map (fun _ => p.1) ++ rowDates l)
    rw [List.Sorted, List.pairwise_append]
    refine ⟨?_, ih h2, ?_⟩
    · rw [List.pairwise_map]
      exact pairwise_const (lexLeB_refl p.1.toList) p.2
    · intro a ha b hb
      simp only [List.mem_map] at ha
      obtain ⟨e, -, rfl⟩ := ha
      obtain ⟨q, hq, rfl⟩ := mem_rowDates hb
      exact h1 q hq

theorem map_headD_rows (l : ZLog) :
    ((l.flatMap (fun p => p.2.map (zrow p.1))).map (fun r => r.headD ""))
      = rowDates l := by
  induction l with
  | nil => rfl
  | cons p l ih =>
    simp only [rowDates, List.flatMap_cons, List.map_append, List.map_map] at ih ⊢
    rw [ih]
    rfl

theorem filter_rows_not_mem {l : ZLog} {d : String}
    (h : d ∉ l.map Prod.fst) :
    (l.flatMap (fun p => p.2.map (zrow p.1))).filter
      (fun r => r.headD "" == d) = [] := by
  induction l with
  | nil => rfl
  | cons p l ih =>
    simp only [List.map_cons, List.mem_cons, not_or] at h
    obtain ⟨h1, h2⟩ := h
    rw [List.flatMap_cons, List.filter_append, ih h2, List.append_nil,
      List.filter_eq_nil_iff]
    intro r hr
    simp only [List.mem_map] at hr
    obtain ⟨e, -, rfl⟩ := hr
    simp [zrow, Ne.symm h1]

theorem filter_rows_group {l : ZLog} {d : String} {es : List ZEntry}
    (hnd : (l.map Prod.fst).Nodup) (hmem : (d, es) ∈ l) :
    (l.flatMap (fun p => p.2.map (zrow p.1))).filter
      (fun r => r.headD "" == d) = es.map (zrow d) := by
  induction l with
  | nil => cases hmem
  | cons p l ih =>
    rw [List.map_cons, List.nodup_cons] at hnd
    obtain ⟨hn1, hn2⟩ := hnd
    rw [List.flatMap_cons, List.filter_append]
    rcases List.mem_cons.1 hmem with heq | hmem2
    · subst heq
      have hrest : d ∉ l.map Prod.fst := hn1
      rw [filter_rows_not_mem hrest, List.append_nil,
        List.filter_eq_self.2 ?_]
      intro r hr
      simp only [List.mem_map] at hr
      obtain ⟨e, -, rfl⟩ := hr
      simp [zrow]
    · have hne : p.1 ≠ d := by
        intro hpd
        exact hn1 (hpd ▸ List.mem_map_of_mem Prod.fst hmem2)
      rw [ih hn2 hmem2, List.filter_eq_nil_iff.2 ?_, List.nil_append]
      intro r hr
      simp only [List.mem_map] at hr
      obtain ⟨e, -, rfl⟩ := hr
      simp [zrow, hne]

end Pomoz

/-! ## Claim theorems -/

/-- Claim C1, counterexample. The claim states that every persistence
write (pomo.py Settings/Session Log save and pomoz.py session-log
write) goes through a temporary file in the same directory as the
target followed by an atomic replace, so that a crash mid-write leaves
the target unchanged. On the code this is false twice over: pomoz.py's
_write_session_log opens the target itself in truncating mode, so a
crash after the open and before the write leaves the target truncated
to empty, and pomo.py's saves create their temporary file in the system
temporary directory, not the target's directory. -/
theorem c1_counterexample :
    ((Pomo.crashAfter (Pomo.write_session_log_steps [Pomo.Tok.tnat 7]) 1
        { target := some [Pomo.Tok.tnat 1, Pomo.Tok.tnat 2], temp := none }).target
      = some []) ∧
    some ([] : List Pomo.Tok) ≠ some [Pomo.Tok.tnat 1, Pomo.Tok.tnat 2] ∧
    Pomo.WStep.createTemp Pomo.TmpDir.targetDir ∉
      Pomo.settings_save_steps [Pomo.Tok.tnat 7] ∧
    Pomo.WStep.createTemp Pomo.TmpDir.targetDir ∉
      Pomo.session_log_save_steps [Pomo.Tok.tnat 7] ∧
    Pomo.WStep.createTemp Pomo.TmpDir.targetDir ∉
      Pomo.write_session_log_steps [Pomo.Tok.tnat 7] := by
  decide

/-- Claim C1, amended. pomo.py's Settings save and Session Log save
write the data to a temporary file created in the system temporary
directory (not necessarily the target's directory) and then move it
onto the target; a crash at any point before the move leaves the
target byte-for-byte unchanged, and the completed sequence installs
the new content (the move models shutil.move, an atomic rename only
when both paths are on the same filesystem). pomoz.py's session-log
write uses no temporary file: it opens the target in truncating write
mode and writes directly, so a crash between the open and the
completed write leaves the target truncated, not unchanged. -/
theorem c1_atomic_write :
    (∀ (data : List Pomo.Tok) (fs : Pomo.DiskState) (k : Nat), k ≤ 2 →
      (Pomo.crashAfter (Pomo.settings_save_steps data) k fs).target = fs.target) ∧
    (∀ (data : List Pomo.Tok) (fs : Pomo.DiskState) (k : Nat), k ≤ 2 →
      (Pomo.crashAfter (Pomo.session_log_save_steps data) k fs).target = fs.target) ∧
    (∀ (data : List Pomo.Tok) (fs : Pomo.DiskState),
      (Pomo.crashAfter (Pomo.settings_save_steps data) 3 fs).target = some data) ∧
    (∀ data : List Pomo.Tok,
      Pomo.settings_save_steps data =
        [Pomo.WStep.createTemp Pomo.TmpDir.sysTemp, Pomo.WStep.writeTemp data,
         Pomo.WStep.moveTempToTarget]) ∧
    (∀ (data : List Pomo.Tok) (fs : Pomo.DiskState),
      (Pomo.crashAfter (Pomo.write_session_log_steps data) 1 fs).target = some []) ∧
    (∀ (data : List Pomo.Tok) (fs : Pomo.DiskState),
      (Pomo.crashAfter (Pomo.write_session_log_steps data) 2 fs).target = some data) := by
  refine ⟨?_, ?_, fun data fs => rfl, fun data => rfl,
    fun data fs => rfl, fun data fs => rfl⟩ <;>
    (intro data fs k hk; interval_cases k <;> rfl)

/-- Claim C1, witness for the amended theorem at concrete inputs. -/
theorem c1_atomic_write_witness :
    (Pomo.crashAfter (Pomo.settings_save_steps [Pomo.Tok.tnat 7]) 2
      { target := some [Pomo.Tok.tnat 1], temp := none }).target
      = some [Pomo.Tok.tnat 1] ∧
    (Pomo.crashAfter (Pomo.write_session_log_steps [Pomo.Tok.tnat 7]) 2
      { target := some [Pomo.Tok.tnat 1], temp := none }).target
      = some [Pomo.Tok.tnat 7] :=
  ⟨(c1_atomic_write.1 [Pomo.Tok.tnat 7]
      { target := some [Pomo.Tok.tnat 1], temp := none } 2 (by decide)).trans rfl,
   c1_atomic_write.2.2.2.2.2 [Pomo.Tok.tnat 7]
      { target := some [Pomo.Tok.tnat 1], temp := none }⟩

/-- Claim C4: for every backing-file state (missing file, unreadable
file, or content that fails to unpickle), pomo.py's Settings load
returns the documented default value and the Session Log load returns
the empty list, and neither load ever raises to the caller (every load
returns an ok outcome). -/
theorem c4_load_fail_soft :
    (∀ fs : Pomo.FileSt, ∃ d, Pomo.load_settingsE fs = Except.ok d) ∧
    (∀ fs : Pomo.FileSt, ∃ l, Pomo.load_logE fs = Except.ok l) ∧
    Pomo.load_settingsE Pomo.FileSt.missing = Except.ok Pomo.default_settings ∧
    Pomo.load_settingsE Pomo.FileSt.unreadable = Except.ok Pomo.default_settings ∧
    (∀ ts, Pomo.unpickleSettings ts = none →
      Pomo.load_settingsE (Pomo.FileSt.content ts) = Except.ok Pomo.default_settings) ∧
    Pomo.load_logE Pomo.FileSt.missing = Except.ok [] ∧
    Pomo.load_logE Pomo.FileSt.unreadable = Except.ok [] ∧
    (∀ ts, Pomo.unpickleLog ts = none →
      Pomo.load_logE (Pomo.FileSt.content ts) = Except.ok []) := by
  refine ⟨?_, ?_, rfl, rfl, ?_, rfl, rfl, ?_⟩
  · intro fs
    cases fs with
    | missing => exact ⟨_, rfl⟩
    | unreadable => exact ⟨_, rfl⟩
    | content ts =>
      cases h : Pomo.unpickleSettings ts with
      | none => exact ⟨Pomo.default_settings, by simp [Pomo.load_settingsE, h]⟩
      | some d => exact ⟨d, by simp [Pomo.load_settingsE, h]⟩
  · intro fs
    cases fs with
    | missing => exact ⟨_, rfl⟩
    | unreadable => exact ⟨_, rfl⟩
    | content ts =>
      cases h : Pomo.unpickleLog ts with
      | none => exact ⟨[], by simp [Pomo.load_logE, h]⟩
      | some l => exact ⟨l, by simp [Pomo.load_logE, h]⟩
  · intro ts h
    simp [Pomo.load_settingsE, h]
  · intro ts h
    simp [Pomo.load_logE, h]

/-- Claim C4, witness: the fail-soft defaults at concrete corrupt
contents. -/
theorem c4_load_fail_soft_witness :
    Pomo.load_settingsE (Pomo.FileSt.content [])
      = Except.ok Pomo.default_settings ∧
    Pomo.load_logE (Pomo.FileSt.content [Pomo.Tok.tbool true])
      = Except.ok [] :=
  ⟨c4_load_fail_soft.2.2.2.2.1 [] rfl,
   c4_load_fail_soft.2.2.2.2.2.2.2 [Pomo.Tok.tbool true] rfl⟩

/-- Claim C6: on load, if the stored date differs from today the daily
counter is reset to 0, the stored date becomes today and a save is
performed immediately; the check is idempotent, and on a matching date
it changes nothing and performs no save. -/
theorem c6_daily_reset (today : String) (d : Pomo.SettingsData) :
    (Pomo.dailyResetCheck today d).1.date = today ∧
    (Pomo.dailyResetCheck today d).1.cfg = d.cfg ∧
    (d.date ≠ today →
      (Pomo.dailyResetCheck today d).1.pomodoro = 0 ∧
      (Pomo.dailyResetCheck today d).2 = true) ∧
    (d.date = today → Pomo.dailyResetCheck today d = (d, false)) ∧
    Pomo.dailyResetCheck today (Pomo.dailyResetCheck today d).1
      = ((Pomo.dailyResetCheck today d).1, false) := by
  by_cases h : d.date = today <;>
    simp [Pomo.dailyResetCheck, h]

/-- Claim C6, witness: a concrete rollover from 2024-01-01 to
2024-01-02 zeroes the counter and saves, and a second check on the
same day is a no-op. -/
theorem c6_daily_reset_witness :
    (Pomo.dailyResetCheck "2024-01-02" Pomo.sampleSettings).1.pomodoro = 0 ∧
    (Pomo.dailyResetCheck "2024-01-02" Pomo.sampleSettings).2 = true ∧
    Pomo.dailyResetCheck "2024-01-02"
        (Pomo.dailyResetCheck "2024-01-02" Pomo.sampleSettings).1
      = ((Pomo.dailyResetCheck "2024-01-02" Pomo.sampleSettings).1, false) :=
  ⟨((c6_daily_reset "2024-01-02" Pomo.sampleSettings).2.2.1 (by decide)).1,
   ((c6_daily_reset "2024-01-02" Pomo.sampleSettings).2.2.1 (by decide)).2,
   (c6_daily_reset "2024-01-02" Pomo.sampleSettings).2.2.2.2⟩

/-- Claim C9: save followed by load is the identity on persisted
values: for every settings dict, saving it and loading the resulting
file yields the same dict, and likewise for every session-log entry
list, preserving all fields and entry order. -/
theorem c9_save_load_roundtrip :
    (∀ d : Pomo.SettingsData,
      Pomo.load_settingsE (Pomo.settingsFileOf d) = Except.ok d) ∧
    (∀ l : List Pomo.StoredEntry,
      Pomo.load_logE (Pomo.logFileOf l) = Except.ok l) := by
  constructor
  · intro d
    simp [Pomo.settingsFileOf, Pomo.load_settingsE, Pomo.unpickleSettings_enc]
  · intro l
    simp [Pomo.logFileOf, Pomo.load_logE, Pomo.unpickleLog_enc]

/-- Claim C3: when a running session's countdown reaches 0 (in pomo.py
the tick taken at 1 second remaining completes the session; in pomoz.py
the tick that observes 0), the machine appends exactly one log entry
recording the completed kind and its configured duration, increments
the daily counter by exactly 1 if and only if the completed session was
a work session (pomo.py; pomoz.py keeps no counter), flips the session
kind, sets the remaining seconds to the currently configured duration
of the new kind, and stops (returns to the idle state). -/
theorem c3_completion_transition :
    (∀ s : Pomo.PomoState, s.is_running = true → s.time_left = 1 →
      (Pomo.timer_tick s).log = s.log ++
        [{ session_type := s.current_session,
           duration := Pomo.currentDuration s }] ∧
      (Pomo.timer_tick s).pomodoro_done = s.pomodoro_done +
        (if s.current_session = Pomo.Session.pomodoro then 1 else 0) ∧
      (Pomo.timer_tick s).settings.pomodoro =
        (if s.current_session = Pomo.Session.pomodoro
          then s.pomodoro_done + 1 else s.settings.pomodoro) ∧
      (Pomo.timer_tick s).current_session =
        (if s.current_session = Pomo.Session.pomodoro
          then Pomo.Session.brk else Pomo.Session.pomodoro) ∧
      (Pomo.timer_tick s).time_left =
        (if s.current_session = Pomo.Session.pomodoro
          then Pomo.cfgBreakMinutes s.settings
          else Pomo.cfgPomodoroMinutes s.settings) * 60 ∧
      (Pomo.timer_tick s).is_running = false) ∧
    (∀ (today now : String) (z : Pomoz.ZState),
      z.is_running = true → z.time_left = 0 →
      (Pomoz.zCountDown today now z).session_log =
        Pomoz.zAppend z.session_log today
          { timestamp := now,
            session_type := if z.is_pomodoro then "Pomodoro" else "Break",
            duration_seconds := Pomoz.zCurrentDuration z } ∧
      Pomoz.zTotalEntries (Pomoz.zCountDown today now z).session_log
        = Pomoz.zTotalEntries z.session_log + 1 ∧
      (Pomoz.zCountDown today now z).is_pomodoro = !z.is_pomodoro ∧
      (Pomoz.zCountDown today now z).time_left =
        Pomoz.zCurrentDuration (Pomoz.zCountDown today now z) ∧
      (Pomoz.zCountDown today now z).is_running = false) := by
  constructor
  · intro s hr htl
    have htick : Pomo.timer_tick s =
        Pomo.end_session { s with time_left := 0 } := by
      simp [Pomo.timer_tick, hr, htl, Pomo.schedule_tick]
    rw [htick]
    cases hcs : s.current_session <;>
      simp [Pomo.end_session, Pomo.currentDuration, Pomo.cfgBreakMinutes,
        Pomo.cfgPomodoroMinutes, hcs]
  · intro today now z hr htl
    have htick : Pomoz.zCountDown today now z =
        Pomoz.zSessionFinished today now z := by
      simp [Pomoz.zCountDown, hr, htl]
    rw [htick]
    cases hp : z.is_pomodoro <;>
      simp [Pomoz.zSessionFinished, Pomoz.zSaveSession, Pomoz.zSwitchSession,
        Pomoz.zCurrentDuration, Pomoz.zTotalEntries_zAppend, hp]

/-- Claim C3, witness: completing a work session at the sample settings
logs one 1500-second work entry, bumps the counter from 3 to 4, flips
to a 300-second break and stops; completing a pomoz break appends one
300-second Break entry and flips to a 1500-second work session. -/
theorem c3_completion_transition_witness :
    (Pomo.timer_tick Pomo.finishingState).log =
      [{ session_type := Pomo.Session.pomodoro, duration := 1500 }] ∧
    (Pomo.timer_tick Pomo.finishingState).pomodoro_done = 4 ∧
    (Pomo.timer_tick Pomo.finishingState).time_left = 300 ∧
    (Pomo.timer_tick Pomo.finishingState).is_running = false ∧
    Pomoz.zTotalEntries
        (Pomoz.zCountDown "2024-01-03" "2024-01-03T08:00:00"
          Pomoz.zRunningBreak).session_log = 4 ∧
    (Pomoz.zCountDown "2024-01-03" "2024-01-03T08:00:00"
        Pomoz.zRunningBreak).time_left = 1500 :=
  have h1 := c3_completion_transition.1 Pomo.finishingState rfl rfl
  have h2 := c3_completion_transition.2 "2024-01-03" "2024-01-03T08:00:00"
    Pomoz.zRunningBreak rfl rfl
  ⟨h1.1.trans (by decide), h1.2.1.trans (by decide),
   h1.2.2.2.2.1.trans (by decide), h1.2.2.2.2.2,
   h2.2.1.trans (by decide), h2.2.2.2.1.trans (by decide)⟩

/-- Claim C5, counterexample. The claim states that every user-supplied
duration that is not an integer or is less than 1 is rejected with the
prior configuration retained. On the code an integer input below 1 is
not rejected: save_and_close clamps it with max(1, ...) and saves the
clamped value, replacing the prior configuration — entering 0 for the
work duration turns the stored 25 minutes into 1 minute. -/
theorem c5_counterexample :
    (Pomo.save_and_close "0" "5" Pomo.sampleState).settings.cfg.pomodoro_minutes
      = some 1 ∧
    Pomo.sampleState.settings.cfg.pomodoro_minutes = some 25 ∧
    (Pomo.save_and_close "0" "5" Pomo.sampleState).POMODORO_DURATION = 60 ∧
    Pomo.sampleState.POMODORO_DURATION = 1500 := by
  decide

/-- Claim C5, amended: a user-supplied duration on which int() fails
(non-integer input) is rejected at the boundary and the whole state —
persisted settings and in-memory durations included — is retained
unchanged; an integer input, including one below 1, is accepted after
clamping with max(1, ...), and the clamped values are stored and
mirrored into the duration attributes. -/
theorem c5_invalid_input (s : Pomo.PomoState) (pv bv : String) :
    ((Pomo.parsePyInt pv = none ∨ Pomo.parsePyInt bv = none) →
      Pomo.save_and_close pv bv s = s) ∧
    (∀ ip ib : Int, Pomo.parsePyInt pv = some ip → Pomo.parsePyInt bv = some ib →
      (Pomo.save_and_close pv bv s).settings.cfg.pomodoro_minutes
        = some (max 1 ip).toNat ∧
      (Pomo.save_and_close pv bv s).settings.cfg.break_minutes
        = some (max 1 ib).toNat ∧
      (Pomo.save_and_close pv bv s).POMODORO_DURATION = (max 1 ip).toNat * 60 ∧
      (Pomo.save_and_close pv bv s).BREAK_DURATION = (max 1 ib).toNat * 60) := by
  constructor
  · intro h
    cases hp : Pomo.parsePyInt pv with
    | none => simp [Pomo.save_and_close, hp]
    | some ip =>
      cases hb : Pomo.parsePyInt bv with
      | none => simp [Pomo.save_and_close, hp, hb]
      | some ib =>
        rcases h with h | h
        · rw [hp] at h; cases h
        · rw [hb] at h; cases h
  · intro ip ib hp hb
    cases hr : s.is_running <;> cases hcs : s.current_session <;>
      simp [Pomo.save_and_close, hp, hb, hr, hcs]

/-- Claim C5, witness: a non-integer input leaves the sample state
untouched, and the integer input 0 is clamped to 1 and stored. -/
theorem c5_invalid_input_witness :
    Pomo.save_and_close "abc" "7" Pomo.sampleState = Pomo.sampleState ∧
    (Pomo.save_and_close "0" "5" Pomo.sampleState).settings.cfg.break_minutes
      = some 5 :=
  ⟨(c5_invalid_input Pomo.sampleState "abc" "7").1 (Or.inl (by decide)),
   ((c5_invalid_input Pomo.sampleState "0" "5").2 0 5 (by decide)
      (by decide)).2.1.trans (by decide)⟩

/-- Claim C8: a duration-change request (work duration 30 minutes)
arriving while the timer is running leaves the current countdown's
remaining seconds and session kind unchanged (only the stored
configuration and the duration attributes change), and once the running
session and, if it was a work session, the following break complete
naturally, the next work session starts with the new 1800-second
duration. -/
theorem c8_midrun_duration_change (s : Pomo.PomoState)
    (hr : s.is_running = true) :
    (Pomo.save_and_close "30" "5" s).time_left = s.time_left ∧
    (Pomo.save_and_close "30" "5" s).current_session = s.current_session ∧
    (Pomo.save_and_close "30" "5" s).is_running = true ∧
    (Pomo.save_and_close "30" "5" s).settings.cfg.pomodoro_minutes = some 30 ∧
    (s.current_session = Pomo.Session.brk →
      ∀ t n, s.time_left = t + 1 → t + 1 ≤ n →
        (Pomo.runTicks n (Pomo.save_and_close "30" "5" s)).time_left = 1800 ∧
        (Pomo.runTicks n (Pomo.save_and_close "30" "5" s)).current_session
          = Pomo.Session.pomodoro ∧
        (Pomo.runTicks n (Pomo.save_and_close "30" "5" s)).is_running = false) ∧
    (s.current_session = Pomo.Session.pomodoro →
      (Pomo.end_session (Pomo.end_session
          (Pomo.save_and_close "30" "5" s))).time_left = 1800 ∧
      (Pomo.end_session (Pomo.end_session
          (Pomo.save_and_close "30" "5" s))).current_session
        = Pomo.Session.pomodoro) := by
  have hsc := Pomo.save_and_close_running "30" "5" s 30 5 (by decide)
    (by decide) hr
  refine ⟨by rw [hsc], by rw [hsc], by rw [hsc]; exact hr,
    by rw [hsc]; show some ((max 1 (30 : Int)).toNat) = some 30; decide,
    ?_, ?_⟩
  · intro hbrk t n ht hn
    have hr2 : (Pomo.save_and_close "30" "5" s).is_running = true := by
      rw [hsc]; exact hr
    have htl2 : (Pomo.save_and_close "30" "5" s).time_left = t + 1 := by
      rw [hsc]; exact ht
    have hcomp := Pomo.runTicks_complete t _ n hr2 htl2 hn
    rw [hcomp, hsc]
    simp [Pomo.end_session, hbrk, Pomo.cfgPomodoroMinutes]
  · intro hwork
    rw [hsc]
    simp [Pomo.end_session, hwork, Pomo.cfgPomodoroMinutes,
      Pomo.cfgBreakMinutes]

/-- Claim C8, witness: at the sample running work session (1400 seconds
left) the request leaves the countdown at 1400 and the work-then-break
completions lead to an 1800-second work session; at the sample running
break session (2 seconds left) two more ticks complete it and the next
work session starts at 1800 seconds. -/
theorem c8_midrun_duration_change_witness :
    (Pomo.save_and_close "30" "5" Pomo.runningState).time_left = 1400 ∧
    (Pomo.end_session (Pomo.end_session
        (Pomo.save_and_close "30" "5" Pomo.runningState))).time_left = 1800 ∧
    (Pomo.runTicks 2 (Pomo.save_and_close "30" "5"
        Pomo.runningBreakState)).time_left = 1800 ∧
    (Pomo.runTicks 2 (Pomo.save_and_close "30" "5"
        Pomo.runningBreakState)).current_session = Pomo.Session.pomodoro :=
  have h1 := c8_midrun_duration_change Pomo.runningState rfl
  have h2 := c8_midrun_duration_change Pomo.runningBreakState rfl
  have h3 := h2.2.2.2.2.1 rfl 1 2 rfl (by decide)
  ⟨h1.1.trans (by decide), (h1.2.2.2.2.2 rfl).1, h3.1, h3.2.1⟩

set_option maxRecDepth 8000 in
/-- Claim C2, counterexample. The claim states that a session running
from start to completion without pause logs exactly one entry whose
duration equals the configured duration in effect when the session
started, even if the duration settings change while it runs. On the
code the logged duration is the in-memory duration attribute at the
moment of completion, and save_and_close updates that attribute
immediately even while the timer runs: starting a 60-second work
session, changing the work duration to 2 minutes mid-run and letting
the countdown finish logs one entry with duration 120, not the 60 that
was configured at the start. -/
theorem c2_counterexample :
    Pomo.currentDuration
        (Pomo.startupState "2024-01-01" Pomo.shortSettings []) = 60 ∧
    (Pomo.run
        (Pomo.Cmd.pause_resume ::
          (List.replicate 59 Pomo.Cmd.tick ++
            [Pomo.Cmd.set_duration "2" "5", Pomo.Cmd.tick]))
        (Pomo.startupState "2024-01-01" Pomo.shortSettings [])).log
      = [{ session_type := Pomo.Session.pomodoro, duration := 120 }] ∧
    (120 : Nat) ≠ 60 := by
  decide

/-- Claim C2, amended: a session that runs from start to completion
without pause and without any duration change during the run appends
exactly one log entry whose duration equals the configured duration
sampled at start; in general the completion transition logs the
configured duration of the completed kind as it stands at completion
time, which a mid-run save_and_close may have changed. -/
theorem c2_single_entry (today : String) (d : Pomo.SettingsData)
    (log0 : List Pomo.LogEntry) (n : Nat)
    (hpos : 0 < Pomo.cfgPomodoroMinutes d)
    (hn : Pomo.cfgPomodoroMinutes d * 60 ≤ n) :
    ((Pomo.run (Pomo.Cmd.pause_resume :: List.replicate n Pomo.Cmd.tick)
        (Pomo.startupState today d log0)).log
      = log0 ++ [{ session_type := Pomo.Session.pomodoro,
                   duration := Pomo.cfgPomodoroMinutes d * 60 }]) ∧
    (∀ s : Pomo.PomoState,
      (Pomo.end_session s).log = s.log ++
        [{ session_type := s.current_session,
           duration := Pomo.currentDuration s }]) := by
  constructor
  · have hcfg : Pomo.cfgPomodoroMinutes (Pomo.dailyResetCheck today d).1
        = Pomo.cfgPomodoroMinutes d := by
      unfold Pomo.cfgPomodoroMinutes
      rw [Pomo.dailyResetCheck_cfg]
    have htl : (Pomo.startupState today d log0).time_left
        = Pomo.cfgPomodoroMinutes d * 60 := by
      show Pomo.cfgPomodoroMinutes (Pomo.dailyResetCheck today d).1 * 60 = _
      rw [hcfg]
    rw [Pomo.run_start_to_completion (Pomo.startupState today d log0) n rfl
        (by rw [htl]; omega) (by rw [htl]; omega),
      Pomo.end_session_log]
    simp [Pomo.startupState, Pomo.currentDuration, Pomo.cfgPomodoroMinutes,
      Pomo.dailyResetCheck_cfg]
  · exact Pomo.end_session_log

set_option maxRecDepth 8000 in
/-- Claim C2, witness: a 1-minute work session run for 60 ticks logs
exactly one 60-second work entry. -/
theorem c2_single_entry_witness :
    (Pomo.run (Pomo.Cmd.pause_resume :: List.replicate 60 Pomo.Cmd.tick)
        (Pomo.startupState "2024-01-01" Pomo.shortSettings [])).log
      = [{ session_type := Pomo.Session.pomodoro, duration := 60 }] :=
  ((c2_single_entry "2024-01-01" Pomo.shortSettings [] 60 (by decide)
      (by decide)).1).trans (by decide)

/-- Claim C7: under every sequence of start/pause/resume/reset commands
interleaved with ticks, in both variants the remaining seconds stay
within the closed interval from 0 to the configured duration of the
current session kind (the lower bound holds by the Nat representation;
decrements stop at 0). -/
theorem c7_remaining_bounded :
    (∀ (today : String) (d : Pomo.SettingsData) (log0 : List Pomo.LogEntry)
        (cmds : List Pomo.Cmd), (∀ c ∈ cmds, Pomo.basicCmd c = true) →
      (Pomo.run cmds (Pomo.startupState today d log0)).time_left
        ≤ Pomo.currentDuration
            (Pomo.run cmds (Pomo.startupState today d log0))) ∧
    (∀ (log0 : Pomoz.ZLog) (cmds : List Pomoz.ZCmd),
      (Pomoz.zRun cmds (Pomoz.zStartupState log0)).time_left
        ≤ Pomoz.zCurrentDuration
            (Pomoz.zRun cmds (Pomoz.zStartupState log0))) := by
  constructor
  · intro today d log0 cmds hb
    exact (Pomo.durInv_run cmds _ hb (Pomo.durInv_startupState today d log0)).1
  · intro log0 cmds
    exact Pomoz.zDurInv_zRun cmds _
      (by simp [Pomoz.ZDurInv, Pomoz.zStartupState, Pomoz.zCurrentDuration])

/-- Claim C7, witness: a concrete start/tick/tick/reset run in each
variant stays within the configured bound. -/
theorem c7_remaining_bounded_witness :
    (Pomo.run [Pomo.Cmd.pause_resume, Pomo.Cmd.tick, Pomo.Cmd.tick,
        Pomo.Cmd.reset]
        (Pomo.startupState "2024-01-01" Pomo.sampleSettings [])).time_left
      ≤ Pomo.currentDuration
          (Pomo.run [Pomo.Cmd.pause_resume, Pomo.Cmd.tick, Pomo.Cmd.tick,
            Pomo.Cmd.reset]
            (Pomo.startupState "2024-01-01" Pomo.sampleSettings [])) ∧
    (Pomoz.zRun [Pomoz.ZCmd.toggle "2024-01-01" "t0",
        Pomoz.ZCmd.tick "2024-01-01" "t1"]
        (Pomoz.zStartupState [])).time_left
      ≤ Pomoz.zCurrentDuration
          (Pomoz.zRun [Pomoz.ZCmd.toggle "2024-01-01" "t0",
            Pomoz.ZCmd.tick "2024-01-01" "t1"]
            (Pomoz.zStartupState [])) :=
  ⟨c7_remaining_bounded.1 "2024-01-01" Pomo.sampleSettings []
      [Pomo.Cmd.pause_resume, Pomo.Cmd.tick, Pomo.Cmd.tick, Pomo.Cmd.reset]
      (by decide),
   c7_remaining_bounded.2 []
      [Pomoz.ZCmd.toggle "2024-01-01" "t0", Pomoz.ZCmd.tick "2024-01-01" "t1"]⟩

/-- Claim C10: the pomoz CSV export writes one header row and then the
entries of each date in ascending sorted order of the date keys
(Python's code-point lexicographic string order), with the entries of
each date kept in their stored insertion order, even when the dates
were inserted into the log dict out of order. -/
theorem c10_export_sorted (log : Pomoz.ZLog) :
    (Pomoz.export_log log = Pomoz.zheader ::
      (List.insertionSort Pomoz.dateLE log).flatMap
        (fun p => p.2.map (Pomoz.zrow p.1))) ∧
    List.Sorted Pomoz.pyStrLe
      (((Pomoz.export_log log).tail).map (fun r => r.headD "")) ∧
    ((log.map Prod.fst).Nodup → ∀ (d : String) (es : List Pomoz.ZEntry),
      (d, es) ∈ log →
      ((Pomoz.export_log log).tail).filter (fun r => r.headD "" == d)
        = es.map (Pomoz.zrow d)) := by
  refine ⟨rfl, ?_, ?_⟩
  · show List.Sorted Pomoz.pyStrLe
      (((List.insertionSort Pomoz.dateLE log).flatMap
        (fun p => p.2.map (Pomoz.zrow p.1))).map (fun r => r.headD ""))
    rw [Pomoz.map_headD_rows]
    exact Pomoz.rowDates_sorted _ (List.sorted_insertionSort Pomoz.dateLE log)
  · intro hnd d es hmem
    have hperm := List.perm_insertionSort Pomoz.dateLE log
    exact Pomoz.filter_rows_group (((hperm.map Prod.fst).nodup_iff).2 hnd)
      (hperm.mem_iff.2 hmem)

/-- Claim C10, witness: exporting the sample log, whose date keys are
stored out of order, yields the 2024-01-01 block (in insertion order)
ahead of the 2024-01-02 row. -/
theorem c10_export_sorted_witness :
    ((Pomoz.export_log Pomoz.zSampleLog).tail).filter
        (fun r => r.headD "" == "2024-01-01")
      = [Pomoz.zrow "2024-01-01" Pomoz.zE2, Pomoz.zrow "2024-01-01" Pomoz.zE3] :=
  ((c10_export_sorted Pomoz.zSampleLog).2.2 (by decide) "2024-01-01"
      [Pomoz.zE2, Pomoz.zE3] (by decide)).trans (by decide)
